import Mathlib

/-!
Verification of the LLM Council backend (`backend/main.py`) against its
design specification.

The FastAPI layer in `backend/main.py` is embedded shallowly: each route
handler becomes a pure Lean function from an explicit store state (and the
outcomes of the remote-model calls, supplied as parameters) to its HTTP
response, the updated store, and — for the streaming route — the ordered
trace of emitted server-sent events and storage writes.

The modules `backend/council.py` and `backend/storage.py` are not part of
the provided source; the functions imported from them
(`run_full_council`, `generate_conversation_title`,
`calculate_aggregate_rankings`, `storage.load_conversation`,
`storage.save_conversation`, `storage.delete_conversation`) are modelled
from the specification where their behaviour matters, as noted on each
definition.
-/

deriving instance DecidableEq for Except

namespace LLMCouncil

/-- Status of one council member's Stage 1 answer (spec §3, `Stage1Response`). -/
inductive S1Status where
  | ok
  | failed (reason : String)
deriving DecidableEq

/-- One member's Stage 1 answer (spec §3). -/
structure Stage1Response where
  model : String
  content : String
  status : S1Status
deriving DecidableEq

/-- Status of one reviewer's Stage 2 ranking (spec §3, `Stage2Ranking`). -/
inductive RankStatus where
  | ok
  | failed (reason : String)
  | malformed (raw : String)
deriving DecidableEq

/-- One reviewer's Stage 2 ranking: ordered labels, best first (spec §3). -/
structure Stage2Ranking where
  reviewer : String
  ordered_labels : List String
  status : RankStatus
deriving DecidableEq

/-- One entry of the consensus ordering (spec §3, `AggregateRanking`). -/
structure AggregateEntry where
  model : String
  score : Nat
  rank : Nat
deriving DecidableEq

/-- The full artifact of one council run, as assembled by the streaming
route in `main.py` (`{'stage1': ..., 'stage2': ..., 'stage3': ...,
'metadata': {'label_to_model': ..., 'aggregate_rankings': ...}}`). -/
structure CouncilResult where
  stage1 : List Stage1Response
  stage2 : List Stage2Ranking
  stage3 : String
  label_to_model : List (String × String)
  aggregate_rankings : List AggregateEntry
deriving DecidableEq

/-- Content of one conversation turn: user turns hold plain text, assistant
turns hold a `CouncilResult` (the dicts appended in `send_message` and in
the streaming generator). -/
inductive MessageContent where
  | text (s : String)
  | council (r : CouncilResult)
deriving DecidableEq

/-- One conversation turn (`{"role": ..., "content": ...}` in `main.py`). -/
structure Message where
  role : String
  content : MessageContent
deriving DecidableEq

/-- A stored conversation (`{"id": ..., "title": ..., "messages": [...]}`). -/
structure Conversation where
  id : String
  title : String
  messages : List Message
deriving DecidableEq

/-- Modelled from the spec: the Conversation Store (`backend/storage.py` is
absent from the source). A store maps conversation ids to conversations;
`load_conversation` returns `none` for an absent id. -/
def Store : Type := String → Option Conversation

/-- Modelled from the spec: `storage.save_conversation(cid, conv)` writes
`conv` under key `cid`, leaving every other key unchanged. -/
def save_conversation (store : Store) (cid : String) (conv : Conversation) : Store :=
  fun k => if k = cid then some conv else store k

/-- Modelled from the spec: `storage.delete_conversation(cid)` removes the
entry if present and reports whether anything was deleted. -/
def storage_delete_conversation (store : Store) (cid : String) : Bool × Store :=
  match store cid with
  | some _ => (true, fun k => if k = cid then none else store k)
  | none => (false, store)

/-- An `HTTPException` as raised in `main.py`: status code, detail string,
and extra response headers. -/
structure HTTPError where
  status_code : Nat
  detail : String
  headers : List (String × String)
deriving DecidableEq

/-- The 404 error raised by every route when the conversation id is absent. -/
def notFound : HTTPError :=
  { status_code := 404, detail := "Conversation not found", headers := [] }

/-- HTTP Basic credentials as delivered by FastAPI's `HTTPBasic` security. -/
structure HTTPBasicCredentials where
  username : String
  password : String
deriving DecidableEq

/-- Python truthiness of the `AUTH_PASSWORD` value: `os.getenv` yields
`None` when the variable is unset, and `not AUTH_PASSWORD` is also true
for the empty string. -/
def passwordFalsy : Option String → Bool
  | none => true
  | some s => s = ""

/-- Embedding of `verify_credentials` from `main.py`: if `AUTH_PASSWORD`
is falsy (unset or empty) every request is accepted as `"anonymous"`;
otherwise the username and password must match `AUTH_USERNAME` and
`AUTH_PASSWORD` exactly (byte equality via `secrets.compare_digest`), and
a mismatch raises 401 with a `WWW-Authenticate: Basic` header. -/
def verify_credentials (authUsername : String) (authPassword : Option String)
    (credentials : HTTPBasicCredentials) : Except HTTPError String :=
  if passwordFalsy authPassword then
    Except.ok "anonymous"
  else
    let pw := authPassword.getD ""
    let is_correct_username : Bool := credentials.username = authUsername
    let is_correct_password : Bool := credentials.password = pw
    if is_correct_username && is_correct_password then
      Except.ok credentials.username
    else
      Except.error
        { status_code := 401, detail := "Invalid credentials",
          headers := [("WWW-Authenticate", "Basic")] }

/-- Embedding of `create_conversation` from `main.py`: the fresh UUID is
supplied as a parameter (`uuid.uuid4()` is the only nondeterminism). The
new conversation has the default title and no messages and is saved under
the fresh id, which is also its `id` field. -/
def create_conversation (newUuid : String) (store : Store) : Conversation × Store :=
  let conversation : Conversation :=
    { id := newUuid, title := "New Conversation", messages := [] }
  (conversation, save_conversation store newUuid conversation)

/-- Embedding of `get_conversation` from `main.py`: load, 404 if absent. -/
def get_conversation (store : Store) (cid : String) : Except HTTPError Conversation :=
  match store cid with
  | some conversation => Except.ok conversation
  | none => Except.error notFound

/-- Embedding of `delete_conversation` from `main.py`: delete via the
store, return `{"status": "deleted"}` on success, 404 if nothing existed. -/
def delete_conversation (store : Store) (cid : String) :
    Except HTTPError String × Store :=
  let r := storage_delete_conversation store cid
  if r.1 then (Except.ok "deleted", r.2) else (Except.error notFound, r.2)

/-- Modelled from the spec (§4.7): `generate_conversation_title` lives in
the absent `backend/council.py`; per the spec its failure is absorbed and
a fallback default title `"New Conversation"` is returned. The call's
outcome (a generated title, or `none` for failure) is a parameter. -/
def generate_conversation_title (outcome : Option String) (_prompt : String) : String :=
  match outcome with
  | some title => title
  | none => "New Conversation"

/-- Looks a label up in the label-to-model mapping produced by Stage 2. -/
def labelModel (label_to_model : List (String × String)) (label : String) :
    Option String :=
  label_to_model.lookup label

/-- Points one reviewer's ordered label list awards to `model` under the
positional rule of spec §4.3: position `i` in a list of length `L` is
worth `L - i` points; models the reviewer omitted receive 0. -/
def rankingPointsFor (label_to_model : List (String × String)) (model : String)
    (labels : List String) : Nat :=
  (labels.enum.map
    (fun p => if labelModel label_to_model p.2 = some model then labels.length - p.1 else 0)).sum

/-- Whether a Stage 2 ranking has `Ok` status; only those contribute to
aggregation (spec §4.3, §7). -/
def isOkRanking (r : Stage2Ranking) : Bool :=
  match r.status with
  | RankStatus.ok => true
  | _ => false

/-- Total score of `model` across all `Ok` rankings (spec §4.3). -/
def modelScore (rankings : List Stage2Ranking) (label_to_model : List (String × String))
    (model : String) : Nat :=
  ((rankings.filter isOkRanking).map
    (fun r => rankingPointsFor label_to_model model r.ordered_labels)).sum

/-- Stable descending insertion by score: an element is placed before the
first element whose score is not larger, so equal scores keep their
original (configured-member) order — the explicit tie-break of spec §4.3. -/
def insertByScore (x : String × Nat) : List (String × Nat) → List (String × Nat)
  | [] => [x]
  | y :: ys => if y.2 ≤ x.2 then x :: y :: ys else y :: insertByScore x ys

/-- Stable sort, highest score first. -/
def sortByScoreDesc (l : List (String × Nat)) : List (String × Nat) :=
  l.foldr insertByScore []

/-- Modelled from the spec (§4.3): `calculate_aggregate_rankings` lives in
the absent `backend/council.py`. Pure function of the Stage 2 rankings and
the label map: positional points summed per model over the `Ok` rankings,
sorted by total score descending with ties broken by the configured member
order `members`, each entry carrying its 1-based rank. -/
def calculate_aggregate_rankings (rankings : List Stage2Ranking)
    (label_to_model : List (String × String)) (members : List String) :
    List AggregateEntry :=
  let scored := members.map (fun m => (m, modelScore rankings label_to_model m))
  let sorted := sortByScoreDesc scored
  sorted.enum.map (fun p => { model := p.2.1, score := p.2.2, rank := p.1 + 1 })

/-- Result of one call to the batch `send_message` route: the HTTP
response, the store afterwards, whether `run_full_council` was invoked,
and the argument `generate_conversation_title` was invoked with (`none`
when it was not invoked). -/
structure SendMessageOutcome where
  response : Except HTTPError CouncilResult
  store : Store
  councilCalled : Bool
  titleArg : Option String

/-- Embedding of `send_message` from `main.py`. The absent
`run_full_council` (in `backend/council.py`) is taken as a parameter
`runCouncil` producing the composed `CouncilResult`; `titleOutcome` is the
title-generation outcome as in `generate_conversation_title`. The handler
loads the conversation (404 if absent, before any council call), runs the
council, appends the user turn then the assistant turn, generates a title
when the conversation then holds exactly two messages, and saves. -/
def send_message (store : Store) (cid : String) (content : String)
    (runCouncil : String → CouncilResult) (titleOutcome : Option String) :
    SendMessageOutcome :=
  match store cid with
  | none => ⟨Except.error notFound, store, false, none⟩
  | some conversation =>
    let result := runCouncil content
    let msgs := conversation.messages ++
      [{ role := "user", content := MessageContent.text content },
       { role := "assistant", content := MessageContent.council result }]
    if msgs.length = 2 then
      let title := generate_conversation_title titleOutcome content
      let conv' : Conversation := { id := conversation.id, title := title, messages := msgs }
      ⟨Except.ok result, save_conversation store cid conv', true, some content⟩
    else
      let conv' : Conversation :=
        { id := conversation.id, title := conversation.title, messages := msgs }
      ⟨Except.ok result, save_conversation store cid conv', true, none⟩

/-- The server-sent event types emitted by the streaming route (spec §6).
`error` is included because the spec names it; whether the code ever emits
it is settled by the theorems below. -/
inductive EventType where
  | stage1_start
  | stage1_complete
  | stage2_start
  | stage2_complete
  | stage3_start
  | stage3_complete
  | title_update
  | done
  | error
deriving DecidableEq

/-- One observable action of the streaming generator: yielding an event
(payloads elided; only the `type` tag matters to the claims) or calling
`storage.save_conversation(cid, conv)`. -/
inductive Action where
  | emit (e : EventType)
  | save (cid : String) (conv : Conversation)
deriving DecidableEq

/-- Outcomes of the awaited calls inside the streaming generator: each
stage either returns its data or raises a run-level exception
(`AllMembersFailed` / `ChairmanUnavailable`), plus the title-generation
outcome. These live in the absent `backend/council.py` and are supplied
as parameters. -/
structure StreamInputs where
  stage1 : Except String (List Stage1Response)
  stage2 : Except String (List Stage2Ranking × List (String × String))
  stage3 : Except String String
  titleOutcome : Option String

/-- Embedding of the `generate` async generator inside
`send_message_stream` in `main.py`, as the full trace of actions it would
perform if driven to the end, paired with `true` if it terminates normally
and `false` if an awaited stage raises (there is no `try` in `generate`,
so a stage exception propagates and ends the stream). Mirrors the source
line by line: append the user message, yield `stage1_start`, await Stage 1,
yield `stage1_complete`, yield `stage2_start`, await Stage 2, compute
aggregate rankings, yield `stage2_complete`, yield `stage3_start`, await
Stage 3, yield `stage3_complete`, append the assistant message, generate
the title and yield `title_update` when the conversation then holds
exactly two messages, save, yield `done`. -/
def generateTrace (conv : Conversation) (cid : String) (content : String)
    (members : List String) (inp : StreamInputs) : List Action × Bool :=
  let conv1 : Conversation :=
    { conv with messages := conv.messages ++
        [{ role := "user", content := MessageContent.text content }] }
  match inp.stage1 with
  | Except.error _ => ([Action.emit EventType.stage1_start], false)
  | Except.ok stage1_results =>
    match inp.stage2 with
    | Except.error _ =>
      ([Action.emit EventType.stage1_start, Action.emit EventType.stage1_complete,
        Action.emit EventType.stage2_start], false)
    | Except.ok (stage2_results, label_to_model) =>
      let aggregate_rankings :=
        calculate_aggregate_rankings stage2_results label_to_model members
      match inp.stage3 with
      | Except.error _ =>
        ([Action.emit EventType.stage1_start, Action.emit EventType.stage1_complete,
          Action.emit EventType.stage2_start, Action.emit EventType.stage2_complete,
          Action.emit EventType.stage3_start], false)
      | Except.ok stage3_result =>
        let result : CouncilResult :=
          { stage1 := stage1_results, stage2 := stage2_results,
            stage3 := stage3_result, label_to_model := label_to_model,
            aggregate_rankings := aggregate_rankings }
        let conv2 : Conversation :=
          { conv1 with messages := conv1.messages ++
              [{ role := "assistant", content := MessageContent.council result }] }
        if conv2.messages.length = 2 then
          let title := generate_conversation_title inp.titleOutcome content
          let conv3 : Conversation := { conv2 with title := title }
          ([Action.emit EventType.stage1_start, Action.emit EventType.stage1_complete,
            Action.emit EventType.stage2_start, Action.emit EventType.stage2_complete,
            Action.emit EventType.stage3_start, Action.emit EventType.stage3_complete,
            Action.emit EventType.title_update, Action.save cid conv3,
            Action.emit EventType.done], true)
        else
          ([Action.emit EventType.stage1_start, Action.emit EventType.stage1_complete,
            Action.emit EventType.stage2_start, Action.emit EventType.stage2_complete,
            Action.emit EventType.stage3_start, Action.emit EventType.stage3_complete,
            Action.save cid conv2, Action.emit EventType.done], true)

/-- The actions actually performed when the consumer pulls at most `k`
events and then cancels (or the generator ends). The generator suspends at
each yield: actions between two yields run only when the next event is
pulled, so a cancellation after the `k`-th event cuts the trace right
after the `k`-th `emit`; trailing non-emit actions run only if a further
pull drives the generator past them. -/
def takeEmits : Nat → List Action → List Action
  | 0, _ => []
  | _ + 1, [] => []
  | k + 1, Action.emit e :: rest => Action.emit e :: takeEmits k rest
  | k + 1, Action.save cid conv :: rest => Action.save cid conv :: takeEmits (k + 1) rest

/-- The sequence of event types yielded along a trace. -/
def emittedEvents (trace : List Action) : List EventType :=
  trace.filterMap (fun a =>
    match a with
    | Action.emit e => some e
    | Action.save _ _ => none)

/-- Embedding of the `send_message_stream` route in `main.py`: it loads the
conversation and raises 404 if absent — before constructing the generator,
so no council call and no event is ever produced for an unknown id —
and otherwise returns the streaming generator, embedded as its trace. -/
def send_message_stream (store : Store) (cid : String) (content : String)
    (members : List String) (inp : StreamInputs) :
    Except HTTPError (List Action × Bool) :=
  match store cid with
  | none => Except.error notFound
  | some conversation => Except.ok (generateTrace conversation cid content members inp)

/-- The user turn appended for a prompt. -/
def userMsg (content : String) : Message :=
  { role := "user", content := MessageContent.text content }

/-- The assistant turn appended for a council result. -/
def assistantMsg (result : CouncilResult) : Message :=
  { role := "assistant", content := MessageContent.council result }

/-- A fresh conversation, as `create_conversation` builds it. -/
def convEx : Conversation :=
  { id := "c1", title := "New Conversation", messages := [] }

/-- A conversation that already holds one full exchange. -/
def convLaterEx : Conversation :=
  { id := "c1", title := "Photosynthesis",
    messages := [userMsg "q0", assistantMsg ⟨[], [], "a0", [], []⟩] }

/-- A store holding exactly `convEx` under `"c1"`. -/
def storeEx : Store :=
  fun k => if k = "c1" then some convEx else none

/-- A store holding exactly `convLaterEx` under `"c1"`. -/
def storeLaterEx : Store :=
  fun k => if k = "c1" then some convLaterEx else none

/-- A council run returning a fixed result, for concrete evaluations. -/
def runCouncilEx : String → CouncilResult :=
  fun _ => ⟨[], [], "final answer", [], []⟩

/-- Streaming inputs for a fully successful run. -/
def inpOkEx : StreamInputs :=
  ⟨Except.ok [], Except.ok ([], []), Except.ok "answer", none⟩

/-- Streaming inputs whose Stage 1 raises `AllMembersFailed`. -/
def inpFailEx : StreamInputs :=
  ⟨Except.error "AllMembersFailed", Except.ok ([], []), Except.ok "answer", none⟩

/-- The conversation the successful streaming run on `convEx` saves. -/
def conv3Ex : Conversation :=
  { id := "c1", title := "New Conversation",
    messages := [userMsg "hi",
      assistantMsg ⟨[], [], "answer", [], calculate_aggregate_rankings [] [] []⟩] }

/-- A concrete `Ok` Stage 2 ranking, reviewer X. -/
def rankingXEx : Stage2Ranking :=
  { reviewer := "model-x", ordered_labels := ["Response A", "Response B"],
    status := RankStatus.ok }

/-- A concrete `Ok` Stage 2 ranking, reviewer Y. -/
def rankingYEx : Stage2Ranking :=
  { reviewer := "model-y", ordered_labels := ["Response B", "Response A"],
    status := RankStatus.ok }

/-- A concrete label-to-model mapping. -/
def l2mEx : List (String × String) :=
  [("Response A", "model-x"), ("Response B", "model-y")]

/-! ### Theorems -/

/-- Claim C9 counterexample: the claim's dichotomy "unset ⇒ accept all,
set ⇒ match-or-401" fails when `AUTH_PASSWORD` is set to the empty string:
`main.py` tests Python truthiness (`if not AUTH_PASSWORD`), so an empty
password disables authentication. With `AUTH_USERNAME = "admin"` and
`AUTH_PASSWORD = ""` set, credentials `("admin", "")` match both values,
yet the function returns `"anonymous"`, not the supplied username, and a
mismatching request is accepted rather than rejected with 401. -/
theorem C9_counterexample :
    verify_credentials "admin" (some "") ⟨"admin", ""⟩ = Except.ok "anonymous" ∧
    verify_credentials "admin" (some "") ⟨"admin", ""⟩ ≠ Except.ok "admin" ∧
    verify_credentials "admin" (some "") ⟨"nobody", "wrong"⟩ = Except.ok "anonymous" := by
  refine ⟨rfl, ?_, rfl⟩
  decide

/-- Claim C9 (amended): if `AUTH_PASSWORD` is unset **or empty**,
`verify_credentials` accepts every request and returns `"anonymous"`; if
it is set to a non-empty string, it returns the supplied username exactly
when both the username equals `AUTH_USERNAME` and the password equals
`AUTH_PASSWORD`, and raises HTTP 401 with a `WWW-Authenticate: Basic`
header otherwise. -/
theorem C9_verify_credentials (au pw : String) (c : HTTPBasicCredentials)
    (hpw : pw ≠ "") :
    verify_credentials au none c = Except.ok "anonymous" ∧
    verify_credentials au (some "") c = Except.ok "anonymous" ∧
    verify_credentials au (some pw) c =
      (if c.username = au ∧ c.password = pw then Except.ok c.username
       else Except.error { status_code := 401, detail := "Invalid credentials",
                           headers := [("WWW-Authenticate", "Basic")] }) := by
  refine ⟨rfl, rfl, ?_⟩
  by_cases h1 : c.username = au <;> by_cases h2 : c.password = pw <;>
    simp [verify_credentials, passwordFalsy, hpw, h1, h2]

/-- Witness for C9: a concrete matching request against a non-empty
configured password is accepted with the supplied username. -/
theorem C9_verify_credentials_witness :
    verify_credentials "admin" (some "secret") ⟨"admin", "secret"⟩ =
      Except.ok "admin" := by
  have h := (C9_verify_credentials "admin" "secret" ⟨"admin", "secret"⟩ (by decide)).2.2
  rw [if_pos ⟨rfl, rfl⟩] at h
  exact h

/-- Claim C10: `create_conversation` returns a conversation whose title is
exactly `"New Conversation"`, whose messages list is empty and whose `id`
field is the fresh UUID, persists it under that UUID as the storage key,
and touches no other key. -/
theorem C10_create_conversation (newUuid : String) (store : Store) :
    (create_conversation newUuid store).1 =
      { id := newUuid, title := "New Conversation", messages := [] } ∧
    (create_conversation newUuid store).2 newUuid =
      some { id := newUuid, title := "New Conversation", messages := [] } ∧
    ∀ k, k ≠ newUuid → (create_conversation newUuid store).2 k = store k := by
  refine ⟨rfl, ?_, ?_⟩
  · simp [create_conversation, save_conversation]
  · intro k hk
    simp [create_conversation, save_conversation, hk]

/-- Witness for C10: creating a conversation with a concrete fresh id in
the empty store stores it under that id and leaves other keys absent. -/
theorem C10_create_conversation_witness :
    (create_conversation "c1" (fun _ => none)).2 "c1" =
      some { id := "c1", title := "New Conversation", messages := [] } ∧
    (create_conversation "c1" (fun _ => none)).2 "c2" = none := by
  have h := C10_create_conversation "c1" (fun _ => none)
  exact ⟨h.2.1, h.2.2 "c2" (by decide)⟩

/-- Claim C8: for a conversation id absent from the store,
`get_conversation`, `delete_conversation`, `send_message` and
`send_message_stream` all fail with HTTP 404 `"Conversation not found"`,
the store is unchanged, and no council call is made (`send_message`
reports `councilCalled = false`; `send_message_stream` never constructs
the generator); conversely, for a present id none of them raises 404. -/
theorem C8_missing_conversation_404 (store : Store) (cid content : String)
    (runCouncil : String → CouncilResult) (titleOutcome : Option String)
    (members : List String) (inp : StreamInputs) :
    (store cid = none →
      get_conversation store cid = Except.error notFound ∧
      delete_conversation store cid = (Except.error notFound, store) ∧
      (send_message store cid content runCouncil titleOutcome).response =
        Except.error notFound ∧
      (send_message store cid content runCouncil titleOutcome).store = store ∧
      (send_message store cid content runCouncil titleOutcome).councilCalled = false ∧
      send_message_stream store cid content members inp = Except.error notFound ∧
      notFound.status_code = 404 ∧ notFound.detail = "Conversation not found") ∧
    (∀ conv, store cid = some conv →
      get_conversation store cid = Except.ok conv ∧
      (delete_conversation store cid).1 = Except.ok "deleted" ∧
      (send_message store cid content runCouncil titleOutcome).response =
        Except.ok (runCouncil content) ∧
      send_message_stream store cid content members inp =
        Except.ok (generateTrace conv cid content members inp)) := by
  constructor
  · intro h
    refine ⟨?_, ?_, ?_, ?_, ?_, ?_, rfl, rfl⟩ <;>
      simp [get_conversation, delete_conversation, storage_delete_conversation,
            send_message, send_message_stream, h]
  · intro conv h
    refine ⟨?_, ?_, ?_, ?_⟩
    · simp [get_conversation, h]
    · simp [delete_conversation, storage_delete_conversation, h]
    · simp only [send_message, h]
      split <;> rfl
    · simp [send_message_stream, h]

/-- Witness for C8: with a concrete store holding only `"c1"`, the four
routes 404 on `"c2"` and succeed on `"c1"`. -/
theorem C8_missing_conversation_404_witness :
    get_conversation storeEx "c2" = Except.error notFound ∧
    get_conversation storeEx "c1" = Except.ok convEx := by
  have h2 := (C8_missing_conversation_404 storeEx "c2" "hi" runCouncilEx none [] inpOkEx).1
    (by decide)
  have h1 := (C8_missing_conversation_404 storeEx "c1" "hi" runCouncilEx none [] inpOkEx).2
    convEx (by decide)
  exact ⟨h2.1, h1.1⟩

/-- A list with two elements appended has length two exactly when it was
empty: the arithmetic core of the first-exchange test in `main.py`. -/
theorem append_pair_length_two (l : List Message) (a b : Message) :
    (l ++ [a, b]).length = 2 ↔ l = [] := by
  constructor
  · intro hc
    apply List.length_eq_zero.mp
    have h2 : l.length + 2 = 2 := by simpa [List.length_append] using hc
    omega
  · intro hl
    subst hl
    rfl

/-- A list with one element appended twice has length two exactly when it
was empty: the first-exchange test as it appears in the streaming path. -/
theorem append_one_one_length_two (l : List Message) (a b : Message) :
    ((l ++ [a]) ++ [b]).length = 2 ↔ l = [] := by
  rw [List.append_assoc]
  exact append_pair_length_two l a b

/-- Saving a conversation makes it loadable under the saved key. -/
theorem save_conversation_self (store : Store) (cid : String) (conv : Conversation) :
    save_conversation store cid conv cid = some conv := by
  simp [save_conversation]

/-- Unfolding lemma for `send_message` on a present conversation: the
council result is returned, both turns are appended, the title is
regenerated exactly on the first exchange, and the updated conversation is
saved under the requested id. -/
theorem send_message_some (store : Store) (cid content : String)
    (runCouncil : String → CouncilResult) (titleOutcome : Option String)
    (conv : Conversation) (h : store cid = some conv) :
    send_message store cid content runCouncil titleOutcome =
      ⟨Except.ok (runCouncil content),
       save_conversation store cid
         { id := conv.id,
           title := if conv.messages = []
             then generate_conversation_title titleOutcome content
             else conv.title,
           messages := conv.messages ++ [userMsg content, assistantMsg (runCouncil content)] },
       true,
       if conv.messages = [] then some content else none⟩ := by
  simp only [send_message, h, append_pair_length_two]
  by_cases hm : conv.messages = [] <;> simp [hm, userMsg, assistantMsg]

/-- Claim C4: for an existing conversation, `send_message` returns the
composed council result, invokes the council, and appends exactly the
user turn followed by the assistant turn — the conversation id and all
previously stored turns are unchanged (they remain a prefix), and every
other conversation in the store is untouched. -/
theorem C4_send_message_frame (store : Store) (cid content : String)
    (runCouncil : String → CouncilResult) (titleOutcome : Option String)
    (conv : Conversation) (h : store cid = some conv) :
    (send_message store cid content runCouncil titleOutcome).response =
      Except.ok (runCouncil content) ∧
    (send_message store cid content runCouncil titleOutcome).councilCalled = true ∧
    (∃ conv', (send_message store cid content runCouncil titleOutcome).store cid = some conv' ∧
      conv'.id = conv.id ∧
      conv'.messages = conv.messages ++ [userMsg content, assistantMsg (runCouncil content)]) ∧
    (∀ k, k ≠ cid → (send_message store cid content runCouncil titleOutcome).store k = store k) := by
  rw [send_message_some store cid content runCouncil titleOutcome conv h]
  refine ⟨rfl, rfl,
    ⟨{ id := conv.id,
       title := if conv.messages = []
         then generate_conversation_title titleOutcome content
         else conv.title,
       messages := conv.messages ++ [userMsg content, assistantMsg (runCouncil content)] },
      save_conversation_self store cid _, rfl, rfl⟩, ?_⟩
  intro k hk
  simp [save_conversation, hk]

/-- Witness for C4: sending a concrete message to the stored conversation
`"c1"` appends the user turn and the assistant turn in order. -/
theorem C4_send_message_frame_witness :
    ∃ conv', (send_message storeEx "c1" "hi" runCouncilEx none).store "c1" = some conv' ∧
      conv'.id = convEx.id ∧
      conv'.messages = convEx.messages ++ [userMsg "hi", assistantMsg (runCouncilEx "hi")] := by
  have h := C4_send_message_frame storeEx "c1" "hi" runCouncilEx none convEx (by decide)
  exact h.2.2.1

/-- Claim C5: when title generation fails (outcome `none`, which the
spec-modelled `generate_conversation_title` absorbs into the fallback
`"New Conversation"`), the run still succeeds — the caller receives the
council result — and the stored conversation carries the fallback default
title on a first exchange and its previous title on later exchanges. -/
theorem C5_title_failure_nonfatal (store : Store) (cid content : String)
    (runCouncil : String → CouncilResult) (conv : Conversation)
    (h : store cid = some conv) :
    (send_message store cid content runCouncil none).response =
      Except.ok (runCouncil content) ∧
    ∀ conv', (send_message store cid content runCouncil none).store cid = some conv' →
      conv'.title = (if conv.messages = [] then "New Conversation" else conv.title) := by
  rw [send_message_some store cid content runCouncil none conv h]
  refine ⟨rfl, ?_⟩
  intro conv' h'
  dsimp only at h'
  rw [save_conversation_self] at h'
  have hc := Option.some.inj h'
  subst hc
  by_cases hm : conv.messages = [] <;> simp [hm, generate_conversation_title]

/-- Witness for C5: a failing title generation on the first exchange of
`"c1"` still returns the council result, and the saved conversation holds
the fallback title. -/
theorem C5_title_failure_nonfatal_witness :
    (send_message storeEx "c1" "hi" runCouncilEx none).response =
      Except.ok (runCouncilEx "hi") ∧
    ∀ conv', (send_message storeEx "c1" "hi" runCouncilEx none).store "c1" = some conv' →
      conv'.title = (if convEx.messages = [] then "New Conversation" else convEx.title) := by
  exact C5_title_failure_nonfatal storeEx "c1" "hi" runCouncilEx convEx (by decide)

/-- Claim C6: on both the batch route and the streaming route, the title
generator is invoked exactly when the conversation holds exactly two
messages after the user and assistant turns are appended (equivalently,
when the conversation was empty before — its first exchange), and then
with the current prompt, which is the conversation's first user prompt;
on later exchanges the stored title is unchanged. In the batch route the
invocation is witnessed by `titleArg`; in the streaming embedding by the
`title_update` event being emitted exactly on a first exchange and the
saved conversation's title being the generated title of the current
prompt on a first exchange and the previous title otherwise. -/
theorem C6_title_exactly_first_exchange (store : Store) (cid content : String)
    (runCouncil : String → CouncilResult) (titleOutcome : Option String)
    (members : List String) (s1 : List Stage1Response) (s2 : List Stage2Ranking)
    (l2m : List (String × String)) (s3 : String)
    (conv : Conversation) (h : store cid = some conv) :
    (send_message store cid content runCouncil titleOutcome).titleArg =
      (if conv.messages = [] then some content else none) ∧
    (∀ conv', (send_message store cid content runCouncil titleOutcome).store cid = some conv' →
      (conv'.messages.length = 2 ↔ conv.messages = []) ∧
      (conv.messages = [] → conv'.messages.head? = some (userMsg content)) ∧
      (conv.messages ≠ [] → conv'.title = conv.title)) ∧
    (EventType.title_update ∈ emittedEvents (generateTrace conv cid content members
        ⟨Except.ok s1, Except.ok (s2, l2m), Except.ok s3, titleOutcome⟩).1 ↔
      conv.messages = []) ∧
    (∀ scid sconv, Action.save scid sconv ∈ (generateTrace conv cid content members
        ⟨Except.ok s1, Except.ok (s2, l2m), Except.ok s3, titleOutcome⟩).1 →
      (sconv.messages.length = 2 ↔ conv.messages = []) ∧
      (conv.messages = [] →
        sconv.title = generate_conversation_title titleOutcome content ∧
        sconv.messages.head? = some (userMsg content)) ∧
      (conv.messages ≠ [] → sconv.title = conv.title)) := by
  refine ⟨?_, ?_, ?_, ?_⟩
  · rw [send_message_some store cid content runCouncil titleOutcome conv h]
  · rw [send_message_some store cid content runCouncil titleOutcome conv h]
    intro conv' h'
    dsimp only at h'
    rw [save_conversation_self] at h'
    have hc := Option.some.inj h'
    subst hc
    refine ⟨append_pair_length_two conv.messages _ _, ?_, ?_⟩
    · intro hm
      simp [hm]
    · intro hm
      simp [hm]
  · by_cases hm : conv.messages = [] <;>
      simp [generateTrace, append_one_one_length_two, emittedEvents, hm]
  · intro scid sconv hsave
    by_cases hm : conv.messages = []
    · simp [generateTrace, append_one_one_length_two, hm] at hsave
      obtain ⟨hcid, hconv⟩ := hsave
      subst hconv
      refine ⟨by simp [hm], ?_, fun hc => absurd hm hc⟩
      intro _
      exact ⟨rfl, by simp [hm, userMsg]⟩
    · simp [generateTrace, append_one_one_length_two, hm] at hsave
      obtain ⟨hcid, hconv⟩ := hsave
      subst hconv
      refine ⟨?_, fun hc => absurd hc hm, fun _ => rfl⟩
      simp [hm, List.length_append]

/-- Witness for C6: on the first exchange of `"c1"` the title generator is
invoked with the prompt `"hi"` on both routes — the streaming run emits
`title_update` and its saved conversation carries the generated (fallback)
title with the prompt as first user message — while on a later exchange of
a two-message conversation it is not invoked and the stream emits no
`title_update`. -/
theorem C6_title_exactly_first_exchange_witness :
    (send_message storeEx "c1" "hi" runCouncilEx none).titleArg =
      (if convEx.messages = [] then some "hi" else none) ∧
    (EventType.title_update ∈ emittedEvents (generateTrace convEx "c1" "hi" []
        ⟨Except.ok [], Except.ok ([], []), Except.ok "answer", none⟩).1 ↔
      convEx.messages = []) ∧
    (conv3Ex.title = generate_conversation_title none "hi" ∧
      conv3Ex.messages.head? = some (userMsg "hi")) ∧
    (send_message storeLaterEx "c1" "hi2" runCouncilEx none).titleArg =
      (if convLaterEx.messages = [] then some "hi2" else none) ∧
    (EventType.title_update ∈ emittedEvents (generateTrace convLaterEx "c1" "hi2" []
        ⟨Except.ok [], Except.ok ([], []), Except.ok "answer", none⟩).1 ↔
      convLaterEx.messages = []) := by
  have h1 := C6_title_exactly_first_exchange storeEx "c1" "hi" runCouncilEx none
    [] [] [] [] "answer" convEx (by decide)
  have h2 := C6_title_exactly_first_exchange storeLaterEx "c1" "hi2" runCouncilEx none
    [] [] [] [] "answer" convLaterEx (by decide)
  refine ⟨h1.1, h1.2.2.1, ?_, h2.1, h2.2.2.1⟩
  exact (h1.2.2.2 "c1" conv3Ex (by decide)).2.1 (by decide)

/-- Per-model scores are invariant under permutation of the supplied
rankings: the score is a sum over the `Ok` rankings, and filtering,
mapping and summing all respect permutations. -/
theorem modelScore_perm (r1 r2 : List Stage2Ranking)
    (l2m : List (String × String)) (m : String) (hperm : r1.Perm r2) :
    modelScore r1 l2m m = modelScore r2 l2m m := by
  unfold modelScore
  exact List.Perm.sum_eq (List.Perm.map _ (List.Perm.filter _ hperm))

/-- Claim C7: `calculate_aggregate_rankings` is a pure function whose
output is independent of the order in which the rankings are supplied —
any two permutations of the same rankings produce the identical
`AggregateRanking` (scores are order-independent sums, and the sort is
applied to the configured member list, not to the rankings). -/
theorem C7_aggregate_rankings_perm_invariant (r1 r2 : List Stage2Ranking)
    (l2m : List (String × String)) (members : List String)
    (hperm : r1.Perm r2) :
    calculate_aggregate_rankings r1 l2m members =
      calculate_aggregate_rankings r2 l2m members := by
  unfold calculate_aggregate_rankings
  have hmap : members.map (fun m => (m, modelScore r1 l2m m)) =
      members.map (fun m => (m, modelScore r2 l2m m)) := by
    apply List.map_congr_left
    intro m _
    rw [modelScore_perm r1 r2 l2m m hperm]
  rw [hmap]

/-- Witness for C7: swapping two concrete reviewers' rankings leaves the
aggregate ranking identical. -/
theorem C7_aggregate_rankings_perm_invariant_witness :
    calculate_aggregate_rankings [rankingXEx, rankingYEx] l2mEx ["model-x", "model-y"] =
      calculate_aggregate_rankings [rankingYEx, rankingXEx] l2mEx ["model-x", "model-y"] := by
  exact C7_aggregate_rankings_perm_invariant [rankingXEx, rankingYEx]
    [rankingYEx, rankingXEx] l2mEx ["model-x", "model-y"]
    (List.Perm.swap rankingYEx rankingXEx [])

/-- Cancelling consumes nothing that the full run would not perform. -/
theorem takeEmits_sublist (l : List Action) : ∀ k, List.Sublist (takeEmits k l) l := by
  induction l with
  | nil =>
    intro k
    cases k <;> simp [takeEmits]
  | cons a rest ih =>
    intro k
    cases k with
    | zero => simp [takeEmits]
    | succ k =>
      cases a with
      | emit e =>
        simp only [takeEmits]
        exact List.Sublist.cons₂ _ (ih k)
      | save scid sconv =>
        simp only [takeEmits]
        exact List.Sublist.cons₂ _ (ih (k + 1))

/-- The cancellation cut of an exhausted trace is empty. -/
theorem takeEmits_nil (k : Nat) : takeEmits k [] = [] := by
  cases k <;> rfl

/-- If a save action in the tail survives the cancellation cut, the
entire emit-only prefix before it was consumed: the cut budget exceeds the
prefix's length, the save survives the remaining budget on the tail, and
every prefix event was delivered. -/
theorem save_mem_takeEmits_append (scid : String) (sconv : Conversation)
    (tail : List Action) :
    ∀ (es : List EventType) (k : Nat),
      Action.save scid sconv ∈ takeEmits k (es.map Action.emit ++ tail) →
        es.length < k ∧
        Action.save scid sconv ∈ takeEmits (k - es.length) tail ∧
        ∀ e ∈ es, Action.emit e ∈ takeEmits k (es.map Action.emit ++ tail) := by
  intro es
  induction es with
  | nil =>
    intro k hmem
    simp only [List.map_nil, List.nil_append] at hmem ⊢
    cases k with
    | zero => simp [takeEmits] at hmem
    | succ k => exact ⟨Nat.succ_pos k, hmem, by simp⟩
  | cons e es ih =>
    intro k hmem
    cases k with
    | zero => simp [takeEmits] at hmem
    | succ k =>
      simp only [List.map_cons, List.cons_append, takeEmits] at hmem
      rcases List.mem_cons.mp hmem with hc | hmem'
      · exact absurd hc (by simp)
      · obtain ⟨h1, h2, h3⟩ := ih k hmem'
        refine ⟨by simpa using Nat.succ_lt_succ h1, by simpa [Nat.succ_sub_succ] using h2, ?_⟩
        intro e' he'
        simp only [List.map_cons, List.cons_append, takeEmits]
        rcases List.mem_cons.mp he' with rfl | he'
        · exact List.mem_cons_self _ _
        · exact List.mem_cons_of_mem _ (h3 e' he')

/-- A surviving save action taken from a `[save, done]` tail is the one
the generator performs. -/
theorem save_mem_takeEmits_tail (scid : String) (sconv : Conversation)
    (cid : String) (conv : Conversation) (k : Nat)
    (hmem : Action.save scid sconv ∈
      takeEmits k [Action.save cid conv, Action.emit EventType.done]) :
    scid = cid ∧ sconv = conv := by
  cases k with
  | zero => simp [takeEmits] at hmem
  | succ k =>
    simp only [takeEmits] at hmem
    rcases List.mem_cons.mp hmem with hc | hmem'
    · injection hc with h1 h2
      exact ⟨h1, h2⟩
    · simp [takeEmits, takeEmits_nil] at hmem'

/-- Claim C1: on a successful streaming run (all three stages return),
the generator emits exactly the eight named event types in order
`stage1_start, stage1_complete, stage2_start, stage2_complete,
stage3_start, stage3_complete, title_update, done` when the conversation
was empty (its first exchange), and the same sequence without
`title_update` on later exchanges — no duplicates, no other events — and
terminates normally. -/
theorem C1_stream_event_sequence (conv : Conversation) (cid content : String)
    (members : List String) (s1 : List Stage1Response) (s2 : List Stage2Ranking)
    (l2m : List (String × String)) (s3 : String) (titleOutcome : Option String) :
    emittedEvents (generateTrace conv cid content members
        ⟨Except.ok s1, Except.ok (s2, l2m), Except.ok s3, titleOutcome⟩).1 =
      (if conv.messages = [] then
        [EventType.stage1_start, EventType.stage1_complete, EventType.stage2_start,
         EventType.stage2_complete, EventType.stage3_start, EventType.stage3_complete,
         EventType.title_update, EventType.done]
       else
        [EventType.stage1_start, EventType.stage1_complete, EventType.stage2_start,
         EventType.stage2_complete, EventType.stage3_start, EventType.stage3_complete,
         EventType.done]) ∧
    (generateTrace conv cid content members
        ⟨Except.ok s1, Except.ok (s2, l2m), Except.ok s3, titleOutcome⟩).2 = true := by
  by_cases hm : conv.messages = [] <;>
    simp [generateTrace, append_one_one_length_two, emittedEvents, hm]

/-- Claim C2 counterexample: on a concrete streaming run whose Stage 1
raises `AllMembersFailed`, the generator emits **no** `error` event — the
exception simply propagates (abnormal termination), contradicting the
claim that the stream ends with a terminal `error` event rather than an
unhandled exception. -/
theorem C2_counterexample :
    EventType.error ∉ emittedEvents (generateTrace convEx "c1" "hi" [] inpFailEx).1 ∧
    emittedEvents (generateTrace convEx "c1" "hi" [] inpFailEx).1 =
      [EventType.stage1_start] ∧
    (generateTrace convEx "c1" "hi" [] inpFailEx).2 = false := by
  decide

/-- Claim C2 (amended): when any stage of a streaming run raises a
run-level failure, the stream stops before emitting `done`, but no `error`
event is emitted either — the generator has no exception handler, so the
caller observes the partial progress events followed by the propagated
exception (abnormal termination), not a terminal `error` event. -/
theorem C2_stream_failure_propagates (conv : Conversation) (cid content : String)
    (members : List String) (inp : StreamInputs)
    (hfail : (∃ e, inp.stage1 = Except.error e) ∨ (∃ e, inp.stage2 = Except.error e) ∨
             (∃ e, inp.stage3 = Except.error e)) :
    EventType.error ∉ emittedEvents (generateTrace conv cid content members inp).1 ∧
    EventType.done ∉ emittedEvents (generateTrace conv cid content members inp).1 ∧
    (generateTrace conv cid content members inp).2 = false := by
  obtain ⟨s1e, s2e, s3e, t⟩ := inp
  cases s1e <;> cases s2e <;> cases s3e <;>
    first
    | (refine ⟨?_, ?_, rfl⟩ <;> simp [generateTrace, emittedEvents])
    | (exfalso
       rcases hfail with ⟨e, he⟩ | ⟨e, he⟩ | ⟨e, he⟩ <;> simp at he)

/-- Witness for C2 (amended): the concrete Stage-1 failure run emits
neither `error` nor `done` and terminates abnormally. -/
theorem C2_stream_failure_propagates_witness :
    EventType.error ∉ emittedEvents (generateTrace convEx "c1" "hi" [] inpFailEx).1 ∧
    EventType.done ∉ emittedEvents (generateTrace convEx "c1" "hi" [] inpFailEx).1 ∧
    (generateTrace convEx "c1" "hi" [] inpFailEx).2 = false :=
  C2_stream_failure_propagates convEx "c1" "hi" [] inpFailEx
    (Or.inl ⟨"AllMembersFailed", rfl⟩)

/-- Claim C3: whatever stage outcomes occur and wherever the consumer
cancels (after `k` delivered events), any `storage.save_conversation`
performed by the streaming generator happens only on a run in which all
three stages succeeded, only after the `stage3_complete` event was
delivered (`k > 6`, so never mid-Stage-2), and the saved conversation
carries the complete `CouncilResult` appended after the user prompt — no
partial or incomplete result is ever persisted. -/
theorem C3_no_partial_save (conv : Conversation) (cid content : String)
    (members : List String) (inp : StreamInputs) (k : Nat)
    (scid : String) (sconv : Conversation)
    (hmem : Action.save scid sconv ∈
      takeEmits k (generateTrace conv cid content members inp).1) :
    (∃ s1 s2 l2m s3, inp.stage1 = Except.ok s1 ∧ inp.stage2 = Except.ok (s2, l2m) ∧
      inp.stage3 = Except.ok s3 ∧
      sconv.messages = conv.messages ++ [userMsg content,
        assistantMsg { stage1 := s1, stage2 := s2, stage3 := s3, label_to_model := l2m,
                       aggregate_rankings := calculate_aggregate_rankings s2 l2m members }]) ∧
    6 < k ∧
    Action.emit EventType.stage3_complete ∈
      takeEmits k (generateTrace conv cid content members inp).1 := by
  obtain ⟨s1e, s2e, s3e, t⟩ := inp
  cases s1e with
  | error e1 =>
    exfalso
    have hsub := (takeEmits_sublist _ k).subset hmem
    simp [generateTrace] at hsub
  | ok s1 =>
    cases s2e with
    | error e2 =>
      exfalso
      have hsub := (takeEmits_sublist _ k).subset hmem
      simp [generateTrace] at hsub
    | ok s2p =>
      obtain ⟨s2, l2m⟩ := s2p
      cases s3e with
      | error e3 =>
        exfalso
        have hsub := (takeEmits_sublist _ k).subset hmem
        simp [generateTrace] at hsub
      | ok s3 =>
        simp only [generateTrace, append_one_one_length_two] at hmem ⊢
        by_cases hm : conv.messages = []
        · rw [if_pos hm] at hmem ⊢
          have h7 := save_mem_takeEmits_append scid sconv _
            [EventType.stage1_start, EventType.stage1_complete, EventType.stage2_start,
             EventType.stage2_complete, EventType.stage3_start, EventType.stage3_complete,
             EventType.title_update] k hmem
          obtain ⟨hlen, htail, hall⟩ := h7
          obtain ⟨hcid, hconv⟩ := save_mem_takeEmits_tail scid sconv cid _ _ htail
          refine ⟨⟨s1, s2, l2m, s3, rfl, rfl, rfl, ?_⟩, ?_, ?_⟩
          · rw [hconv]
            simp [userMsg, assistantMsg]
          · have : (7 : Nat) ≤ [EventType.stage1_start, EventType.stage1_complete,
              EventType.stage2_start, EventType.stage2_complete, EventType.stage3_start,
              EventType.stage3_complete, EventType.title_update].length := by simp
            omega
          · exact hall EventType.stage3_complete (by simp)
        · rw [if_neg hm] at hmem ⊢
          have h6 := save_mem_takeEmits_append scid sconv _
            [EventType.stage1_start, EventType.stage1_complete, EventType.stage2_start,
             EventType.stage2_complete, EventType.stage3_start, EventType.stage3_complete]
            k hmem
          obtain ⟨hlen, htail, hall⟩ := h6
          obtain ⟨hcid, hconv⟩ := save_mem_takeEmits_tail scid sconv cid _ _ htail
          refine ⟨⟨s1, s2, l2m, s3, rfl, rfl, rfl, ?_⟩, ?_, ?_⟩
          · rw [hconv]
            simp [userMsg, assistantMsg]
          · have : (6 : Nat) ≤ [EventType.stage1_start, EventType.stage1_complete,
              EventType.stage2_start, EventType.stage2_complete, EventType.stage3_start,
              EventType.stage3_complete].length := by simp
            omega
          · exact hall EventType.stage3_complete (by simp)

/-- Witness for C3: on a concrete fully-successful first-exchange run
driven to 9 delivered events, a save does occur — and the theorem then
certifies it happened after `stage3_complete` was delivered. -/
theorem C3_no_partial_save_witness :
    (6 : Nat) < 9 ∧
    Action.emit EventType.stage3_complete ∈
      takeEmits 9 (generateTrace convEx "c1" "hi" [] inpOkEx).1 := by
  have h := C3_no_partial_save convEx "c1" "hi" [] inpOkEx 9 "c1" conv3Ex (by decide)
  exact ⟨h.2.1, h.2.2⟩

end LLMCouncil
